import Mathlib

/-!
Shallow embedding of the cogni-agent repository's query-orchestration and
history-compaction engine.

Sources embedded:
* `src/agent/agent.py` — `CognizanceAgent.process_query`: the multi-model
  retry/failover loop over a generative-model provider.
* `src/api/routes.py` — the `chat` handler's history-compaction and
  summary-cache logic, and the `_schedule_summarization` background job.

The external provider (`client.aio.models.generate_content`) is modelled as an
oracle `Nat → Outcome` giving the classified outcome of the i-th provider call
of a `process_query` invocation.  Wall-clock time (`time.time()`) is a `Nat`
parameter.  Generation-config plumbing (temperature / max_output_tokens
overrides) selects provider parameters only and does not affect any control
flow modelled here, so it is not carried through the embedding.
-/

namespace CogniAgent

/-- Classified outcome of one provider call, mirroring the exception taxonomy
of `process_query`: success with text; a transient/quota failure
(`ResourceExhausted`, `TooManyRequests`, `ServiceUnavailable`); or any other
exception, carrying `str(e)`. -/
inductive Outcome where
  | ok (text : String)
  | transient (err : String)
  | terminal (err : String)
deriving DecidableEq, Repr

/-- The dict returned by `process_query`: keys `success`, `response`,
optional `model_used`, optional `error`. -/
structure QueryResult where
  success : Bool
  response : String
  model_used : Option String
  error : Option String
deriving DecidableEq, Repr

/-- Observable trace state threaded through the loops of `process_query`:
the global provider-call counter (index into the oracle), the list of model
names called so far in order, the backoff sleeps performed in order, and
`last_error` (the Python local of the same name, set only by transient
failures). -/
structure LoopState where
  callIdx : Nat
  calls : List String
  delays : List Nat
  last_error : Option String
deriving DecidableEq, Repr

/-- Mirror of `self.max_retries = 3` in `CognizanceAgent.__init__`. -/
def max_retries : Nat := 3

/-- Mirror of `self.base_retry_delay = 1` in `CognizanceAgent.__init__`. -/
def base_retry_delay : Nat := 1

/-- Result of the inner `for attempt in range(self.max_retries)` loop for one
model: an early `return` with success, an early `return` from the generic
`except` branch (terminal), or falling out of the loop (retry budget
exhausted on transient failures, or every attempt skipped). -/
inductive AttemptOut where
  | succeeded (text : String)
  | terminalFail (err : String)
  | exhausted
deriving DecidableEq, Repr

/-- The inner retry loop of `process_query` for a single `model_name`.
`remaining` counts attempts left, so the Python `attempt` index is
`maxR - remaining`; `attempt < max_retries - 1` becomes `remaining > 1`.
An empty model name hits `if not model_name: continue` and consumes the
attempt without a provider call. -/
def attemptLoop (baseDelay maxR : Nat) (oracle : Nat → Outcome) (model : String) :
    Nat → LoopState → AttemptOut × LoopState
  | 0, st => (.exhausted, st)
  | r + 1, st =>
    if model = "" then
      attemptLoop baseDelay maxR oracle model r st
    else
      let attempt := maxR - (r + 1)
      match oracle st.callIdx with
      | .ok text =>
          (.succeeded text,
            { st with callIdx := st.callIdx + 1, calls := st.calls ++ [model] })
      | .transient err =>
          let st' : LoopState :=
            { st with
              callIdx := st.callIdx + 1
              calls := st.calls ++ [model]
              last_error := some err }
          if r > 0 then
            attemptLoop baseDelay maxR oracle model r
              { st' with delays := st'.delays ++ [baseDelay * 2 ^ attempt] }
          else
            (.exhausted, st')
      | .terminal err =>
          (.terminalFail err,
            { st with callIdx := st.callIdx + 1, calls := st.calls ++ [model] })

/-- The user-facing message built in the generic `except Exception` branch of
`process_query`; it embeds `str(e)` after an `Error:` label. -/
def terminalMessage (err : String) : String :=
  "I apologize, but I encountered an error processing your request. " ++
  "Please try again or contact our support team.\n\nError: " ++ err

/-- The `response` text of the all-models-exhausted failure result. -/
def quotaMessage : String :=
  "All available models have hit their quota limits right now. " ++
  "Please try again in a few minutes."

/-- The failure dict returned after the model loop ends with every candidate
exhausted: `error` is `str(last_error)` when a transient error was observed,
else the fixed string. -/
def allExhaustedResult (last_error : Option String) : QueryResult :=
  { success := false
    response := quotaMessage
    model_used := none
    error := some (match last_error with
      | some e => e
      | none => "Quota exceeded on all models") }

/-- The outer `for model_name in model_candidates` loop of `process_query`. -/
def modelLoop (baseDelay maxR : Nat) (oracle : Nat → Outcome) :
    List String → LoopState → QueryResult × LoopState
  | [], st => (allExhaustedResult st.last_error, st)
  | m :: ms, st =>
    match attemptLoop baseDelay maxR oracle m maxR st with
    | (.succeeded text, st') =>
        ({ success := true, response := text, model_used := some m, error := none }, st')
    | (.terminalFail err, st') =>
        ({ success := false, response := terminalMessage err,
           model_used := none, error := some err }, st')
    | (.exhausted, st') => modelLoop baseDelay maxR oracle ms st'

/-- Mirror of `model_candidates = [preferred_model] if preferred_model else
self.model_names` — Python truthiness makes `None` and `""` both fall back to
the configured list. -/
def model_candidates (preferred_model : Option String) (model_names : List String) :
    List String :=
  match preferred_model with
  | some p => if p = "" then model_names else [p]
  | none => model_names

/-- Embedding of `CognizanceAgent.process_query`, reduced to its observable
control flow:
given the preferred model, the configured candidate list
(`[settings.google_model] + settings.fallback_models_list`) and the provider
oracle, return the result dict together with the call/backoff trace. -/
def process_query (preferred_model : Option String) (model_names : List String)
    (oracle : Nat → Outcome) : QueryResult × LoopState :=
  modelLoop base_retry_delay max_retries oracle
    (model_candidates preferred_model model_names) ⟨0, [], [], none⟩

-- sanity checks on concrete traces
example :
    (process_query none ["a", "b"] (fun _ => .ok "hi")).1 =
      { success := true, response := "hi", model_used := some "a", error := none } := by
  decide

example :
    (process_query none ["a"] (fun i => if i = 0 then .transient "q" else .ok "hi")).2.calls
      = ["a", "a"] := by
  decide

example :
    (process_query none ["a", "b"] (fun _ => .transient "q")).2.calls
      = ["a", "a", "a", "b", "b", "b"] := by
  decide

example :
    (process_query none ["a", "b"] (fun _ => .transient "q")).2.delays
      = [1, 2, 1, 2] := by
  decide

example :
    (process_query none ["a", "b"] (fun _ => .terminal "boom")).2.calls = ["a"] := by
  decide

/-! ## History compaction and summary cache (`src/api/routes.py`) -/

/-- A chat turn as the handler sees it (`Message.dict()`). -/
structure Msg where
  role : String
  content : String
deriving DecidableEq, Repr

/-- A value of `SUMMARY_CACHE`: `{"summary": str, "expires_at": float}`.
Timestamps are modelled as `Nat`. -/
structure CacheEntry where
  summary : String
  expires_at : Nat
deriving DecidableEq, Repr

/-- `SUMMARY_CACHE`, a Python dict modelled as an association list in which a
key assignment removes any previous binding of that key. -/
abbrev Cache := List (String × CacheEntry)

/-- Dict lookup `SUMMARY_CACHE[k]` / membership `k in SUMMARY_CACHE`. -/
def lookupCache (c : Cache) (k : String) : Option CacheEntry :=
  (List.find? (fun p => p.1 = k) c).map Prod.snd

/-- Dict assignment `SUMMARY_CACHE[k] = v`. -/
def cacheInsert (c : Cache) (k : String) (v : CacheEntry) : Cache :=
  List.filter (fun p => ¬ p.1 = k) c ++ [(k, v)]

/-- Dict deletion `del SUMMARY_CACHE[k]`. -/
def cacheDelete (c : Cache) (k : String) : Cache :=
  List.filter (fun p => ¬ p.1 = k) c

/-- Mirror of `MAX_TURNS = 15` in `routes.py`. -/
def MAX_TURNS : Nat := 15

/-- Mirror of `KEEP_LAST = 8` in `routes.py`. -/
def KEEP_LAST : Nat := 8

/-- Mirror of `SUMMARY_TTL_SECONDS = 6 * 3600` in `routes.py`. -/
def SUMMARY_TTL_SECONDS : Nat := 6 * 3600

/-- What the `chat` handler's history-management block produces before calling
`agent.process_query`: the history argument passed on, the state of
`SUMMARY_CACHE` afterwards, and the background summarization job
(`_schedule_summarization(conversation_id, older)`) it added to
`background_tasks`, if any. -/
structure CompactOut where
  history : Option (List Msg)
  cache : Cache
  job : Option (Option String × List Msg)
deriving DecidableEq, Repr

/-- The history-management block of the `chat` handler (`routes.py`).
Python truthiness: `if chat_request.chat_history:` is false for `None` and for
`[]`; `if chat_request.conversation_id and ... in SUMMARY_CACHE:` is false for
`None` and for `""`. -/
def chatCompact (chat_history : Option (List Msg)) (conversation_id : Option String)
    (cache : Cache) (now : Nat) : CompactOut :=
  match chat_history with
  | none => ⟨none, cache, none⟩
  | some full_history =>
    if full_history.isEmpty then ⟨none, cache, none⟩
    else if full_history.length > MAX_TURNS then
      let older := full_history.take (full_history.length - KEEP_LAST)
      let recent := full_history.drop (full_history.length - KEEP_LAST)
      match conversation_id with
      | some cid =>
        if cid = "" then
          ⟨some recent, cache, some (conversation_id, older)⟩
        else
          match lookupCache cache cid with
          | some entry =>
            if entry.expires_at > now then
              ⟨some (⟨"assistant", entry.summary⟩ :: recent), cache, none⟩
            else
              ⟨some recent, cacheDelete cache cid, none⟩
          | none => ⟨some recent, cache, some (conversation_id, older)⟩
      | none => ⟨some recent, cache, some (none, older)⟩
    else ⟨some full_history, cache, none⟩

/-- Mirror of `settings.fallback_models_list[-1] if
settings.fallback_models_list else settings.google_model` — the model picked
for background summarization. -/
def cheaper_model (fallback_models_list : List String) (google_model : String) :
    String :=
  match fallback_models_list.getLast? with
  | some m => m
  | none => google_model

/-- The async worker `_do` inside `_schedule_summarization`: it always issues
the `agent.process_query` provider call (with the summary prompt as input and
the cheaper model preferred), and only on a truthy `success` and truthy
`response` — and only when `conv_id` is truthy — assigns
`SUMMARY_CACHE[conv_id] = {"summary": response.strip(), "expires_at":
now + SUMMARY_TTL_SECONDS}`.  Returns the cache afterwards together with the
provider-call trace. -/
def runSummarizationJob (oracle : Nat → Outcome) (cheaper : String)
    (model_names : List String) (conv_id : Option String) (now : Nat)
    (cache : Cache) : Cache × QueryResult × LoopState :=
  let r := process_query (some cheaper) model_names oracle
  let summary_result := r.1
  let cache' :=
    if summary_result.success ∧ ¬ summary_result.response = "" then
      match conv_id with
      | some cid =>
        if cid = "" then cache
        else cacheInsert cache cid
          ⟨summary_result.response.trim, now + SUMMARY_TTL_SECONDS⟩
      | none => cache
    else cache
  (cache', r.1, r.2)

/-- Embedding of `CognizanceAgent._build_history`: role normalization from
handler turns to provider contents — `assistant` and unknown roles map to
`model`; falsy (empty or absent) history maps to no contents. -/
def build_history (chat_history : Option (List Msg)) : List Msg :=
  match chat_history with
  | none => []
  | some h =>
    if h.isEmpty then []
    else h.map (fun msg =>
      let raw_role := msg.role.toLower
      let role :=
        if raw_role = "user" then "user"
        else if raw_role = "assistant" then "model"
        else if raw_role = "system" then "system"
        else "model"
      ⟨role, msg.content⟩)

-- sanity checks on the compaction block
example :
    chatCompact (some (List.range 16 |>.map fun i => ⟨"user", toString i⟩))
      (some "c") [⟨"c", ⟨"s", 5⟩⟩] 10 =
      ⟨some ((List.range 16 |>.map fun i => (⟨"user", toString i⟩ : Msg)).drop 8),
        [], none⟩ := by
  decide

example :
    (chatCompact (some (List.range 16 |>.map fun i => ⟨"user", toString i⟩))
      (some "c") [] 10).job =
      some (some "c", (List.range 16 |>.map fun i => (⟨"user", toString i⟩ : Msg)).take 8) := by
  decide

example :
    (chatCompact (some (List.range 16 |>.map fun i => ⟨"user", toString i⟩))
      (some "c") [⟨"c", ⟨"s", 99⟩⟩] 10).history =
      some (⟨"assistant", "s"⟩ ::
        ((List.range 16 |>.map fun i => (⟨"user", toString i⟩ : Msg)).drop 8)) := by
  decide

/-- Predicate: `needle` occurs as a contiguous substring of `haystack` (on
the character data); used to state whether diagnostic detail is embedded in
user-facing text. -/
def strContains (haystack needle : String) : Bool :=
  decide (needle.data <:+: haystack.data)

/-- A 16-turn history used as a concrete fixture. -/
def sampleHistory16 : List Msg :=
  (List.range 16).map fun i => ⟨"user", toString i⟩

/-! ## Orchestrator theorems -/

/-- C2: `N` consecutive transient failures (`N < 3`) on the first candidate
`A` followed by a success give a success result with `model_used = A`,
exactly `N + 1` provider calls, all to `A`, and backoff waits
`base_delay * 2 ^ i` for `i = 0 .. N-1` before the retries. -/
theorem retry_backoff_same_model (A : String) (hA : ¬ A = "") (rest : List String)
    (N : Nat) (hN : N < 3) (oracle : Nat → Outcome) (e : Nat → String) (t : String)
    (htr : ∀ i, i < N → oracle i = .transient (e i))
    (hok : oracle N = .ok t) :
    (process_query none (A :: rest) oracle).1.success = true ∧
    (process_query none (A :: rest) oracle).1.model_used = some A ∧
    (process_query none (A :: rest) oracle).2.calls = List.replicate (N + 1) A ∧
    (process_query none (A :: rest) oracle).2.delays =
      (List.range N).map (fun i => base_retry_delay * 2 ^ i) := by
  interval_cases N
  · simp [process_query, model_candidates, modelLoop, attemptLoop, max_retries,
      base_retry_delay, hA, hok]
  · have h0 := htr 0 (by omega)
    simp [process_query, model_candidates, modelLoop, attemptLoop, max_retries,
      base_retry_delay, hA, h0, hok, List.replicate, List.range_succ]
  · have h0 := htr 0 (by omega)
    have h1 := htr 1 (by omega)
    simp [process_query, model_candidates, modelLoop, attemptLoop, max_retries,
      base_retry_delay, hA, h0, h1, hok, List.replicate, List.range_succ]

/-- Witness for `retry_backoff_same_model` at `A = "a"`, `rest = []`,
`N = 1`. -/
theorem retry_backoff_same_model_witness :
    ¬ "a" = "" ∧ (1 : Nat) < 3 ∧
    ((process_query none ["a"]
        (fun i => if i = 0 then .transient "q" else .ok "hi")).1.success = true ∧
      (process_query none ["a"]
        (fun i => if i = 0 then .transient "q" else .ok "hi")).1.model_used = some "a" ∧
      (process_query none ["a"]
        (fun i => if i = 0 then .transient "q" else .ok "hi")).2.calls =
        List.replicate 2 "a" ∧
      (process_query none ["a"]
        (fun i => if i = 0 then .transient "q" else .ok "hi")).2.delays =
        (List.range 1).map (fun i => base_retry_delay * 2 ^ i)) :=
  ⟨by decide, by decide,
    retry_backoff_same_model "a" (by decide) [] 1 (by decide)
      (fun i => if i = 0 then .transient "q" else .ok "hi") (fun _ => "q") "hi"
      (by intro i hi; interval_cases i; decide) (by decide)⟩

/-- C3: first candidate `A` fails transiently on all 3 attempts, second
candidate `B` succeeds on its first attempt: success with `model_used = B`
after exactly the calls `[A, A, A, B]` — candidates tried strictly in list
order. -/
theorem failover_to_next_model (A B : String) (hA : ¬ A = "") (hB : ¬ B = "")
    (rest : List String) (oracle : Nat → Outcome) (e0 e1 e2 t : String)
    (h0 : oracle 0 = .transient e0) (h1 : oracle 1 = .transient e1)
    (h2 : oracle 2 = .transient e2) (h3 : oracle 3 = .ok t) :
    (process_query none (A :: B :: rest) oracle).1.success = true ∧
    (process_query none (A :: B :: rest) oracle).1.model_used = some B ∧
    (process_query none (A :: B :: rest) oracle).2.calls = [A, A, A, B] := by
  simp [process_query, model_candidates, modelLoop, attemptLoop, max_retries,
    base_retry_delay, hA, hB, h0, h1, h2, h3]

/-- Witness for `failover_to_next_model` at `A = "a"`, `B = "b"`. -/
theorem failover_to_next_model_witness :
    ¬ "a" = "" ∧ ¬ "b" = "" ∧
    ((process_query none ["a", "b"]
        (fun i => if i < 3 then .transient "q" else .ok "hi")).1.success = true ∧
      (process_query none ["a", "b"]
        (fun i => if i < 3 then .transient "q" else .ok "hi")).1.model_used = some "b" ∧
      (process_query none ["a", "b"]
        (fun i => if i < 3 then .transient "q" else .ok "hi")).2.calls =
        ["a", "a", "a", "b"]) :=
  ⟨by decide, by decide,
    failover_to_next_model "a" "b" (by decide) (by decide) []
      (fun i => if i < 3 then .transient "q" else .ok "hi") "q" "q" "q" "hi"
      (by decide) (by decide) (by decide) (by decide)⟩

/-- C4: a terminal (non-capacity) error on the first attempt of the first
candidate returns a failure immediately — exactly one provider call in
total, no retries of `A`, zero calls to any later candidate, no backoff. -/
theorem terminal_error_short_circuit (A : String) (hA : ¬ A = "")
    (rest : List String) (oracle : Nat → Outcome) (err : String)
    (h0 : oracle 0 = .terminal err) :
    (process_query none (A :: rest) oracle).1.success = false ∧
    (process_query none (A :: rest) oracle).1.error = some err ∧
    (process_query none (A :: rest) oracle).2.calls = [A] ∧
    (process_query none (A :: rest) oracle).2.delays = [] := by
  simp [process_query, model_candidates, modelLoop, attemptLoop, max_retries,
    base_retry_delay, hA, h0]

/-- Witness for `terminal_error_short_circuit` with a configured second
model `"b"` that is never called. -/
theorem terminal_error_short_circuit_witness :
    ¬ "a" = "" ∧
    ((process_query none ["a", "b"] (fun _ => .terminal "boom")).1.success = false ∧
      (process_query none ["a", "b"] (fun _ => .terminal "boom")).1.error = some "boom" ∧
      (process_query none ["a", "b"] (fun _ => .terminal "boom")).2.calls = ["a"] ∧
      (process_query none ["a", "b"] (fun _ => .terminal "boom")).2.delays = []) :=
  ⟨by decide,
    terminal_error_short_circuit "a" (by decide) ["b"]
      (fun _ => .terminal "boom") "boom" (by decide)⟩

set_option maxRecDepth 4000 in
/-- C5 counterexample: on a terminal failure with detail `"boom"`, the
diagnostic detail is NOT kept separate from the user-facing text — the
`response` field embeds `"boom"` (after an `Error:` label) in addition to the
separate `error` field carrying it. -/
theorem terminal_detail_embedded_counterexample :
    (process_query none ["a"] (fun _ => .terminal "boom")).1.error = some "boom" ∧
    strContains (process_query none ["a"] (fun _ => .terminal "boom")).1.response
      "boom" = true := by
  decide

/-- C5 amended: a terminal provider failure yields a failure result whose
`response` is the fixed user-safe apology text with the diagnostic detail
appended after an `Error:` label (so the detail IS embedded in the user-facing
text), and whose separate `error` field carries the same machine-readable
detail. -/
theorem terminal_failure_detail_fields (A : String) (hA : ¬ A = "")
    (rest : List String) (oracle : Nat → Outcome) (err : String)
    (h0 : oracle 0 = .terminal err) :
    (process_query none (A :: rest) oracle).1.success = false ∧
    (process_query none (A :: rest) oracle).1.response = terminalMessage err ∧
    strContains (process_query none (A :: rest) oracle).1.response err = true ∧
    (process_query none (A :: rest) oracle).1.error = some err := by
  have hresp : (process_query none (A :: rest) oracle).1.response =
      terminalMessage err := by
    simp [process_query, model_candidates, modelLoop, attemptLoop, max_retries,
      base_retry_delay, hA, h0]
  have hemb : strContains (terminalMessage err) err = true := by
    have h : err.data <:+: (terminalMessage err).data := by
      rw [terminalMessage, String.data_append]
      exact List.IsSuffix.isInfix (List.suffix_append _ _)
    simpa [strContains] using h
  refine ⟨?_, hresp, by rw [hresp]; exact hemb, ?_⟩ <;>
    simp [process_query, model_candidates, modelLoop, attemptLoop, max_retries,
      base_retry_delay, hA, h0]

/-- Witness for `terminal_failure_detail_fields` at `A = "a"`,
`err = "oops"`. -/
theorem terminal_failure_detail_fields_witness :
    ¬ "a" = "" ∧
    ((process_query none ["a"] (fun _ => .terminal "oops")).1.success = false ∧
      (process_query none ["a"] (fun _ => .terminal "oops")).1.response =
        terminalMessage "oops" ∧
      strContains (process_query none ["a"] (fun _ => .terminal "oops")).1.response
        "oops" = true ∧
      (process_query none ["a"] (fun _ => .terminal "oops")).1.error = some "oops") :=
  ⟨by decide,
    terminal_failure_detail_fields "a" (by decide) []
      (fun _ => .terminal "oops") "oops" (by decide)⟩

/-- On an all-transient oracle, the retry loop for one (nonempty-named) model
makes exactly 3 calls, sleeps 1 and 2 seconds, records the third error as
`last_error`, and falls out exhausted. -/
theorem attemptLoop_all_transient (oracle : Nat → Outcome) (e : Nat → String)
    (he : ∀ i, oracle i = .transient (e i)) (m : String) (hm : ¬ m = "")
    (st : LoopState) :
    attemptLoop 1 3 oracle m 3 st =
      (.exhausted,
        ⟨st.callIdx + 3, st.calls ++ [m, m, m], st.delays ++ [1, 2],
          some (e (st.callIdx + 2))⟩) := by
  simp [attemptLoop, hm, he, LoopState.mk.injEq]

/-- One step of the model loop when the head model exhausts its retries. -/
theorem modelLoop_cons_exhausted (bd mr : Nat) (oracle : Nat → Outcome)
    (m : String) (ms : List String) (st st' : LoopState)
    (h : attemptLoop bd mr oracle m mr st = (.exhausted, st')) :
    modelLoop bd mr oracle (m :: ms) st = modelLoop bd mr oracle ms st' := by
  simp only [modelLoop, h]

/-- On an all-transient oracle the whole model loop exhausts every candidate:
3 calls per model in list order, backoffs 1 and 2 per model, and the failure
result carries the error of the very last call. -/
theorem modelLoop_all_transient (oracle : Nat → Outcome) (e : Nat → String)
    (he : ∀ i, oracle i = .transient (e i)) :
    ∀ (ms : List String), ms ≠ [] → (∀ m ∈ ms, ¬ m = "") → ∀ (st : LoopState),
      modelLoop 1 3 oracle ms st =
        (allExhaustedResult (some (e (st.callIdx + 3 * ms.length - 1))),
          ⟨st.callIdx + 3 * ms.length,
            st.calls ++ ms.flatMap (fun m => [m, m, m]),
            st.delays ++ ms.flatMap (fun _ => [1, 2]),
            some (e (st.callIdx + 3 * ms.length - 1))⟩) := by
  intro ms
  induction ms with
  | nil => intro h; exact absurd rfl h
  | cons m ms ih =>
    intro _ hall st
    have hm : ¬ m = "" := hall m (by simp)
    have step := attemptLoop_all_transient oracle e he m hm st
    rw [modelLoop_cons_exhausted 1 3 oracle m ms st _ step]
    cases ms with
    | nil =>
      simp [modelLoop, allExhaustedResult, LoopState.mk.injEq]
    | cons m2 ms2 =>
      rw [ih (by simp) (fun x hx => hall x (by simp [hx]))]
      simp [allExhaustedResult, LoopState.mk.injEq, List.length_cons,
        List.flatMap_cons]
      refine ⟨congrArg e (by omega), by omega, congrArg e (by omega)⟩

/-- Flattening three calls per model keeps the last model last. -/
theorem getLast?_flatMap_triple :
    ∀ (ms : List String), (ms.flatMap fun m => [m, m, m]).getLast? = ms.getLast? := by
  intro ms
  induction ms with
  | nil => simp
  | cons m ms ih =>
    cases ms with
    | nil => simp
    | cons m2 ms2 =>
      rw [List.flatMap_cons, List.getLast?_append, ih]
      cases hlast : (m2 :: ms2).getLast? with
      | none => simp [List.getLast?_eq_none_iff] at hlast
      | some x => simp [List.getLast?_cons_cons, hlast]

/-- C6: every candidate failing transiently through its full 3-attempt budget
yields a failure result (`success = false`) with the quota-exhaustion message,
whose `error` preserves the last observed provider error — the error of the
final call, which was made to the last model attempted. -/
theorem all_models_exhausted (l : List String) (hne : l ≠ [])
    (hl : ∀ m ∈ l, ¬ m = "") (oracle : Nat → Outcome) (e : Nat → String)
    (he : ∀ i, oracle i = .transient (e i)) :
    (process_query none l oracle).1.success = false ∧
    (process_query none l oracle).1.response = quotaMessage ∧
    (process_query none l oracle).1.error = some (e (3 * l.length - 1)) ∧
    (process_query none l oracle).2.calls = l.flatMap (fun m => [m, m, m]) ∧
    (process_query none l oracle).2.calls.getLast? = l.getLast? := by
  have h := modelLoop_all_transient oracle e he l hne hl ⟨0, [], [], none⟩
  have hpq : process_query none l oracle = modelLoop 1 3 oracle l ⟨0, [], [], none⟩ := by
    simp [process_query, model_candidates, base_retry_delay, max_retries]
  rw [hpq, h]
  simp [allExhaustedResult, getLast?_flatMap_triple]

/-- Witness for `all_models_exhausted` at `l = ["a", "b"]` with every call
failing transiently with error `"q"`. -/
theorem all_models_exhausted_witness :
    (["a", "b"] : List String) ≠ [] ∧
    (∀ m ∈ (["a", "b"] : List String), ¬ m = "") ∧
    (∀ i : Nat, (fun _ : Nat => Outcome.transient "q") i =
      Outcome.transient ((fun _ : Nat => "q") i)) ∧
    ((process_query none ["a", "b"] (fun _ => .transient "q")).1.success = false ∧
      (process_query none ["a", "b"] (fun _ => .transient "q")).1.response =
        quotaMessage ∧
      (process_query none ["a", "b"] (fun _ => .transient "q")).1.error =
        some ((fun _ : Nat => "q") (3 * (["a", "b"] : List String).length - 1)) ∧
      (process_query none ["a", "b"] (fun _ => .transient "q")).2.calls =
        (["a", "b"] : List String).flatMap (fun m => [m, m, m]) ∧
      (process_query none ["a", "b"] (fun _ => .transient "q")).2.calls.getLast? =
        (["a", "b"] : List String).getLast?) :=
  ⟨by decide, by decide, fun _ => rfl,
    all_models_exhausted ["a", "b"] (by decide) (by decide)
      (fun _ => .transient "q") (fun _ => "q") (fun _ => rfl)⟩

/-! ## Compaction and cache theorems -/

/-- C7: a history of at most `MAX_TURNS` turns is passed through unchanged
(for the always-falsy empty history the handler passes `None`, which
`_build_history` treats identically), the cache is untouched and no
summarization job is scheduled. -/
theorem short_history_passthrough (full : List Msg) (h : full.length ≤ MAX_TURNS)
    (cid : Option String) (cache : Cache) (now : Nat) :
    (chatCompact (some full) cid cache now).job = none ∧
    (chatCompact (some full) cid cache now).cache = cache ∧
    build_history (chatCompact (some full) cid cache now).history =
      build_history (some full) ∧
    (¬ full = [] → (chatCompact (some full) cid cache now).history = some full) := by
  have hlen : ¬ full.length > MAX_TURNS := by omega
  cases hfe : full.isEmpty with
  | true =>
    have hfe' : full = [] := by simpa using hfe
    subst hfe'
    simp [chatCompact, build_history]
  | false =>
    simp [chatCompact, hfe, hlen]

/-- Witness for `short_history_passthrough` at a one-turn history. -/
theorem short_history_passthrough_witness :
    ([(⟨"user", "hi"⟩ : Msg)] : List Msg).length ≤ MAX_TURNS ∧
    ((chatCompact (some [⟨"user", "hi"⟩]) none [] 0).job = none ∧
      (chatCompact (some [⟨"user", "hi"⟩]) none [] 0).cache = [] ∧
      build_history (chatCompact (some [⟨"user", "hi"⟩]) none [] 0).history =
        build_history (some [⟨"user", "hi"⟩]) ∧
      (¬ ([(⟨"user", "hi"⟩ : Msg)] : List Msg) = [] →
        (chatCompact (some [⟨"user", "hi"⟩]) none [] 0).history =
          some [⟨"user", "hi"⟩])) :=
  ⟨by decide, short_history_passthrough [⟨"user", "hi"⟩] (by decide) none [] 0⟩

/-- C8: past the threshold, the effective history always ends in the last
`KEEP_LAST = 8` turns verbatim — alone, or below a single prepended summary
turn — whatever the cache state, `min(8, len) = 8` of them; any scheduled
job summarizes exactly the remaining older prefix. -/
theorem long_history_recent_window (full : List Msg) (h : full.length > MAX_TURNS)
    (cid : Option String) (cache : Cache) (now : Nat) :
    (full.drop (full.length - KEEP_LAST)).length = min KEEP_LAST full.length ∧
    ((chatCompact (some full) cid cache now).history =
        some (full.drop (full.length - KEEP_LAST)) ∨
      ∃ s, (chatCompact (some full) cid cache now).history =
        some (⟨"assistant", s⟩ :: full.drop (full.length - KEEP_LAST))) ∧
    (∀ j, (chatCompact (some full) cid cache now).job = some j →
      j.2 = full.take (full.length - KEEP_LAST)) := by
  have hne : full.isEmpty = false := by
    cases full with
    | nil => simp [MAX_TURNS] at h
    | cons a l => simp
  refine ⟨?_, ?_⟩
  · simp only [List.length_drop]
    simp [MAX_TURNS] at h
    simp [KEEP_LAST]
    omega
  rcases cid with _ | c
  · simp [chatCompact, hne, h]
  · by_cases hc : c = ""
    · simp [chatCompact, hne, h, hc]
    · cases hl : lookupCache cache c with
      | none => simp [chatCompact, hne, h, hc, hl]
      | some entry =>
        by_cases hexp : entry.expires_at > now
        · simp [chatCompact, hne, h, hc, hl, hexp]
        · simp [chatCompact, hne, h, hc, hl, hexp]

/-- Witness for `long_history_recent_window` at the 16-turn fixture with a
fresh cache entry present. -/
theorem long_history_recent_window_witness :
    sampleHistory16.length > MAX_TURNS ∧
    ((sampleHistory16.drop (sampleHistory16.length - KEEP_LAST)).length =
        min KEEP_LAST sampleHistory16.length ∧
      ((chatCompact (some sampleHistory16) (some "c") [("c", ⟨"s", 99⟩)] 10).history =
          some (sampleHistory16.drop (sampleHistory16.length - KEEP_LAST)) ∨
        ∃ s, (chatCompact (some sampleHistory16) (some "c")
            [("c", ⟨"s", 99⟩)] 10).history =
          some (⟨"assistant", s⟩ ::
            sampleHistory16.drop (sampleHistory16.length - KEEP_LAST))) ∧
      (∀ j, (chatCompact (some sampleHistory16) (some "c")
          [("c", ⟨"s", 99⟩)] 10).job = some j →
        j.2 = sampleHistory16.take (sampleHistory16.length - KEEP_LAST))) :=
  ⟨by decide,
    long_history_recent_window sampleHistory16 (by decide) (some "c")
      [("c", ⟨"s", 99⟩)] 10⟩

/-- C1 counterexample: a 16-turn request whose identifier maps to an entry
with `expires_at = 5 ≤ now = 10` schedules NO summarization job, while the
same request against a cache with no entry for the identifier (a true miss)
does schedule one — the expired-entry read does not behave identically to a
miss. -/
theorem expired_entry_no_job_counterexample :
    (chatCompact (some sampleHistory16) (some "c") [("c", ⟨"s", 5⟩)] 10).job =
      none ∧
    ¬ (chatCompact (some sampleHistory16) (some "c") ([] : Cache) 10).job =
      none := by
  decide

/-- C1 amended: on a threshold-crossing request whose identifier maps to an
entry with `expires_at ≤ now`, the handler deletes the entry and sends the
recent turns alone with no summary prefix — but, unlike a cache miss, it
enqueues no asynchronous summarization job. -/
theorem expired_entry_read (full : List Msg) (h : full.length > MAX_TURNS)
    (cid : String) (hcid : ¬ cid = "") (cache : Cache) (entry : CacheEntry)
    (hf : lookupCache cache cid = some entry) (now : Nat)
    (hexp : entry.expires_at ≤ now) :
    chatCompact (some full) (some cid) cache now =
      ⟨some (full.drop (full.length - KEEP_LAST)), cacheDelete cache cid, none⟩ := by
  have hne : full.isEmpty = false := by
    cases full with
    | nil => simp [MAX_TURNS] at h
    | cons a l => simp
  have hexp' : ¬ entry.expires_at > now := by omega
  simp [chatCompact, hne, h, hcid, hf, hexp']

/-- Witness for `expired_entry_read` at the 16-turn fixture. -/
theorem expired_entry_read_witness :
    sampleHistory16.length > MAX_TURNS ∧ ¬ "c" = "" ∧
    lookupCache [("c", ⟨"s", 5⟩)] "c" = some ⟨"s", 5⟩ ∧
    (5 : Nat) ≤ 10 ∧
    chatCompact (some sampleHistory16) (some "c") [("c", ⟨"s", 5⟩)] 10 =
      ⟨some (sampleHistory16.drop (sampleHistory16.length - KEEP_LAST)),
        cacheDelete [("c", ⟨"s", 5⟩)] "c", none⟩ :=
  ⟨by decide, by decide, by decide, by decide,
    expired_entry_read sampleHistory16 (by decide) "c" (by decide)
      [("c", ⟨"s", 5⟩)] ⟨"s", 5⟩ (by decide) 10 (by decide)⟩

/-- Filtering by a predicate implied by the search predicate does not change
the result of `find?`. -/
theorem find?_filter_of_imp {α : Type} (p q : α → Bool) (l : List α)
    (h : ∀ a, p a = true → q a = true) :
    (l.filter q).find? p = l.find? p := by
  induction l with
  | nil => rfl
  | cons a l ih =>
    by_cases hq : q a = true
    · rw [List.filter_cons_of_pos hq]
      by_cases hp : p a = true
      · rw [List.find?_cons_of_pos _ hp, List.find?_cons_of_pos _ hp]
      · rw [List.find?_cons_of_neg _ hp, List.find?_cons_of_neg _ hp, ih]
    · have hp : ¬ p a = true := fun hpa => hq (h a hpa)
      rw [List.filter_cons_of_neg hq, List.find?_cons_of_neg _ hp, ih]

/-- A dict assignment makes the assigned value the one found for its key. -/
theorem lookupCache_insert_self (c : Cache) (k : String) (v : CacheEntry) :
    lookupCache (cacheInsert c k v) k = some v := by
  unfold lookupCache cacheInsert
  rw [List.find?_append]
  have h1 : List.find? (fun p => p.1 = k)
      (List.filter (fun p => ¬ p.1 = k) c) = none := by
    rw [List.find?_eq_none]
    intro x hx
    have hmem := (List.mem_filter.mp hx).2
    simp at hmem ⊢
    exact hmem
  simp [h1, List.find?_cons]

/-- A dict assignment leaves every other key's lookup unchanged. -/
theorem lookupCache_insert_other (c : Cache) (k : String) (v : CacheEntry)
    (k' : String) (h : ¬ k' = k) :
    lookupCache (cacheInsert c k v) k' = lookupCache c k' := by
  unfold lookupCache cacheInsert
  rw [List.find?_append]
  have h1 : List.find? (fun p => p.1 = k')
      (List.filter (fun p => ¬ p.1 = k) c) =
      List.find? (fun p => p.1 = k') c := by
    refine find?_filter_of_imp _ _ c (fun a ha => ?_)
    simp at ha ⊢
    simp [ha, h]
  have h2 : List.find? (fun p => p.1 = k') ([(k, v)] : Cache) = none := by
    rw [List.find?_cons_of_neg _ (by simp; exact fun hkk => h hkk.symm)]
    rfl
  rw [h1, h2]
  cases List.find? (fun p => p.1 = k') c <;> rfl

/-- After a dict assignment its key is bound exactly once. -/
theorem count_insert_key (c : Cache) (k : String) (v : CacheEntry) :
    (List.map Prod.fst (cacheInsert c k v)).count k = 1 := by
  unfold cacheInsert
  rw [List.map_append, List.count_append]
  have h1 : (List.map Prod.fst (List.filter (fun p => ¬ p.1 = k) c)).count k = 0 := by
    rw [List.count_eq_zero]
    intro hmem
    obtain ⟨p, hp, hpk⟩ := List.mem_map.mp hmem
    have h2 := (List.mem_filter.mp hp).2
    simp at h2
    exact h2 hpk
  rw [h1]
  simp [List.count_cons]

/-- C9: a successful background summarization for a truthy identifier
assigns exactly the entry `{summary := response.strip(), expires_at :=
now + 21600}` to that identifier: the lookup afterwards returns it, the
identifier is bound exactly once (a second summarization replaces, never
appends), and every other identifier's lookup is untouched. -/
theorem summarization_overwrites_single_entry (oracle : Nat → Outcome)
    (t : String) (h0 : oracle 0 = .ok t) (ht : ¬ t = "") (cheaper : String)
    (hch : ¬ cheaper = "") (mns : List String) (cid : String) (hcid : ¬ cid = "")
    (now : Nat) (cache : Cache) :
    (runSummarizationJob oracle cheaper mns (some cid) now cache).1 =
      cacheInsert cache cid ⟨t.trim, now + SUMMARY_TTL_SECONDS⟩ ∧
    lookupCache (runSummarizationJob oracle cheaper mns (some cid) now cache).1
      cid = some ⟨t.trim, now + 21600⟩ ∧
    (List.map Prod.fst
      (runSummarizationJob oracle cheaper mns (some cid) now cache).1).count
      cid = 1 ∧
    (∀ k, ¬ k = cid →
      lookupCache (runSummarizationJob oracle cheaper mns (some cid) now cache).1
        k = lookupCache cache k) := by
  have hc : (runSummarizationJob oracle cheaper mns (some cid) now cache).1 =
      cacheInsert cache cid ⟨t.trim, now + SUMMARY_TTL_SECONDS⟩ := by
    simp [runSummarizationJob, process_query, model_candidates, hch, modelLoop,
      attemptLoop, max_retries, base_retry_delay, h0, ht, hcid]
  refine ⟨hc, ?_, ?_, ?_⟩
  · rw [hc, lookupCache_insert_self]
    simp [SUMMARY_TTL_SECONDS]
  · rw [hc]
    exact count_insert_key cache cid ⟨t.trim, now + SUMMARY_TTL_SECONDS⟩
  · intro k hk
    rw [hc]
    exact lookupCache_insert_other cache cid _ k hk

/-- Witness for `summarization_overwrites_single_entry`, overwriting a prior
entry for `"c"`. -/
theorem summarization_overwrites_single_entry_witness :
    (fun _ : Nat => Outcome.ok " a summary ") 0 = .ok " a summary " ∧
    ¬ (" a summary " : String) = "" ∧ ¬ ("flash" : String) = "" ∧
    ¬ ("c" : String) = "" ∧
    ((runSummarizationJob (fun _ => .ok " a summary ") "flash" []
        (some "c") 100 [("c", ⟨"old", 7⟩)]).1 =
      cacheInsert [("c", ⟨"old", 7⟩)] "c"
        ⟨(" a summary " : String).trim, 100 + SUMMARY_TTL_SECONDS⟩ ∧
    lookupCache (runSummarizationJob (fun _ => .ok " a summary ") "flash" []
        (some "c") 100 [("c", ⟨"old", 7⟩)]).1 "c" =
      some ⟨(" a summary " : String).trim, 100 + 21600⟩ ∧
    (List.map Prod.fst
      (runSummarizationJob (fun _ => .ok " a summary ") "flash" []
        (some "c") 100 [("c", ⟨"old", 7⟩)]).1).count "c" = 1 ∧
    (∀ k, ¬ k = "c" →
      lookupCache (runSummarizationJob (fun _ => .ok " a summary ") "flash" []
        (some "c") 100 [("c", ⟨"old", 7⟩)]).1 k =
      lookupCache [("c", ⟨"old", 7⟩)] k)) :=
  ⟨rfl, by decide, by decide, by decide,
    summarization_overwrites_single_entry (fun _ => .ok " a summary ")
      " a summary " rfl (by decide) "flash" (by decide) [] "c" (by decide)
      100 [("c", ⟨"old", 7⟩)]⟩

/-- C10: a threshold-crossing request with no conversation identifier still
schedules the summarization job over the older prefix (with `conv_id = None`);
the job still issues its provider call (exactly one, to the cheaper model,
when that call succeeds), but its successful result is discarded: the cache
it returns is exactly the cache it was given — and that holds for every
oracle, successful or not. -/
theorem summarization_without_id_discarded (full : List Msg)
    (h : full.length > MAX_TURNS) (cache : Cache) (now : Nat)
    (oracle : Nat → Outcome) (t : String) (h0 : oracle 0 = .ok t)
    (cheaper : String) (hch : ¬ cheaper = "") (mns : List String)
    (now' : Nat) (c' : Cache) (oracle₂ : Nat → Outcome) :
    (chatCompact (some full) none cache now).job =
      some (none, full.take (full.length - KEEP_LAST)) ∧
    (chatCompact (some full) none cache now).cache = cache ∧
    (runSummarizationJob oracle cheaper mns none now' c').2.2.calls =
      [cheaper] ∧
    (runSummarizationJob oracle cheaper mns none now' c').2.1.success = true ∧
    (runSummarizationJob oracle cheaper mns none now' c').1 = c' ∧
    (runSummarizationJob oracle₂ cheaper mns none now' c').1 = c' := by
  have hne : full.isEmpty = false := by
    cases full with
    | nil => simp [MAX_TURNS] at h
    | cons a l => simp
  refine ⟨?_, ?_, ?_, ?_, ?_, ?_⟩
  · simp [chatCompact, hne, h]
  · simp [chatCompact, hne, h]
  · simp [runSummarizationJob, process_query, model_candidates, hch, modelLoop,
      attemptLoop, max_retries, base_retry_delay, h0]
  · simp [runSummarizationJob, process_query, model_candidates, hch, modelLoop,
      attemptLoop, max_retries, base_retry_delay, h0]
  · simp [runSummarizationJob, process_query, model_candidates, hch, modelLoop,
      attemptLoop, max_retries, base_retry_delay, h0]
  · simp [runSummarizationJob]

/-- Witness for `summarization_without_id_discarded` at the 16-turn fixture. -/
theorem summarization_without_id_discarded_witness :
    sampleHistory16.length > MAX_TURNS ∧
    (fun _ : Nat => Outcome.ok "sum") 0 = .ok "sum" ∧
    ¬ ("flash" : String) = "" ∧
    ((chatCompact (some sampleHistory16) none [] 3).job =
        some (none, sampleHistory16.take (sampleHistory16.length - KEEP_LAST)) ∧
      (chatCompact (some sampleHistory16) none [] 3).cache = [] ∧
      (runSummarizationJob (fun _ => .ok "sum") "flash" [] none 9
        [("z", ⟨"zs", 4⟩)]).2.2.calls = ["flash"] ∧
      (runSummarizationJob (fun _ => .ok "sum") "flash" [] none 9
        [("z", ⟨"zs", 4⟩)]).2.1.success = true ∧
      (runSummarizationJob (fun _ => .ok "sum") "flash" [] none 9
        [("z", ⟨"zs", 4⟩)]).1 = [("z", ⟨"zs", 4⟩)] ∧
      (runSummarizationJob (fun _ => .transient "q") "flash" [] none 9
        [("z", ⟨"zs", 4⟩)]).1 = [("z", ⟨"zs", 4⟩)]) :=
  ⟨by decide, rfl, by decide,
    summarization_without_id_discarded sampleHistory16 (by decide) [] 3
      (fun _ => .ok "sum") "sum" rfl "flash" (by decide) [] 9
      [("z", ⟨"zs", 4⟩)] (fun _ => .transient "q")⟩

end CogniAgent
